import Mathlib

/-!
Verification of the SNARK-gateway HTTP server (`src/prover/src/main.rs`).

The Rust program encodes submission fields into Nock nouns (atoms and
cells), pokes a kernel, and maps poke outcomes to HTTP responses.  We
embed the pure content of each function: noun construction (`D`, `T`,
`string_to_cord`, `string_list_to_noun`), the effect decoder
(`parse_http_response`), and each handler as a function of the request
data together with the kernel's poke result.  Strings are byte lists;
the external `base64::decode` check is abstracted as a boolean oracle
passed to `submit_snark`, and `nockapp`'s `D` on a byte slice is kept
symbolic via the `batom` constructor.
-/

namespace Prover

/-- Nock nouns as built by the gateway: `atom` is `D(n)` on a `u64`
value, `batom` keeps `D` applied to a raw byte slice symbolic, and
`cell` is a pair. -/
inductive Noun where
  | atom (n : Nat)
  | batom (bs : List Nat)
  | cell (head tail : Noun)
deriving DecidableEq, Repr

/-- The `D` constructor on a `u64` value. -/
def D (n : Nat) : Noun := Noun.atom n

/-- The `D` constructor applied to a byte slice (e.g. `D(b"submit-snark")`);
kept symbolic since only its identity matters to the gateway. -/
def Dbytes (bs : List Nat) : Noun := Noun.batom bs

/-- The `T` constructor: right-nested tuple of a list of nouns. -/
def T : List Noun → Noun
  | [] => Noun.atom 0
  | [x] => x
  | x :: xs => Noun.cell x (T xs)

/-- `string_to_cord` from `main.rs:252-263`: empty string gives `D(0)`;
otherwise the first 16 bytes are accumulated big-endian into a `u128`
(`result = (result << 8) | byte`, with `u128` wrap-around modeled by
`% 2 ^ 128`) and the result is cast to `u64` (`% 2 ^ 64`). -/
def string_to_cord (s : List Nat) : Noun :=
  if s = [] then D 0
  else
    D (((s.take 16).foldl (fun result byte => ((result <<< 8) % 2 ^ 128) ||| byte) 0) % 2 ^ 64)

/-- `string_list_to_noun` from `main.rs:266-277`: empty slice gives
`D(0)`; otherwise the list is built right-to-left, consing each cord
onto the accumulator. -/
def string_list_to_noun (strings : List (List Nat)) : Noun :=
  if strings = [] then D 0
  else strings.foldr (fun s acc => Noun.cell (string_to_cord s) acc) (D 0)

/-- Summary row of the list view (`SnarkSummary` in `main.rs`). -/
structure SnarkSummary where
  id : Nat
  proof_system : String
  submitter : String
  submitted : String
  status : String
  notes : String
deriving DecidableEq, Repr

/-- The bodies the gateway can answer with: `error_response` JSON,
`success_response` JSON, or the inline empty `SnarkList`. -/
inductive Resp where
  | errorResp (status : Nat) (error : String)
  | successResp (status : Nat) (message : String)
  | listResp (status : Nat) (snarks : List SnarkSummary) (total : Nat)
deriving DecidableEq, Repr

/-- `parse_http_response` from `main.rs:280-284`: the effect decoder is
unimplemented and always returns `None`. -/
def parse_http_response (effect : Noun) : Option Resp := none

/-- `error_response` from `main.rs:298-305`. -/
def error_response (status : Nat) (message : String) : Resp :=
  Resp.errorResp status message

/-- `success_response` from `main.rs:287-295`. -/
def success_response (status : Nat) (message : String) : Resp :=
  Resp.successResp status message

/-- The effect loop shared by all four handlers: return the first
effect that `parse_http_response` recognizes. -/
def first_http_response (effects : List Noun) : Option Resp :=
  effects.findSome? parse_http_response

/-- `SnarkSubmission` request body; string fields as byte lists. -/
structure SnarkSubmission where
  proof : List Nat
  public_inputs : List (List Nat)
  verification_key : List Nat
  proof_system : List Nat
  submitter : List Nat
  notes : Option (List Nat)

/-- Byte values of the tag `b"submit-snark"`. -/
def submit_snark_tag : List Nat :=
  [115, 117, 98, 109, 105, 116, 45, 115, 110, 97, 114, 107]

/-- Byte values of the tag `b"get-snark"`. -/
def get_snark_tag : List Nat := [103, 101, 116, 45, 115, 110, 97, 114, 107]

/-- Byte values of the tag `b"list-snarks"`. -/
def list_snarks_tag : List Nat :=
  [108, 105, 115, 116, 45, 115, 110, 97, 114, 107, 115]

/-- Byte values of the tag `b"delete-snark"`. -/
def delete_snark_tag : List Nat :=
  [100, 101, 108, 101, 116, 101, 45, 115, 110, 97, 114, 107]

/-- The `%submit-snark` cause built at `main.rs:124-142`:
`T(&[cause_tag, proof, inputs, vk, system, submitter, notes])`. -/
def submit_cause (sub : SnarkSubmission) : Noun :=
  T [Dbytes submit_snark_tag,
     string_to_cord sub.proof,
     string_list_to_noun sub.public_inputs,
     string_to_cord sub.verification_key,
     Dbytes sub.proof_system,
     string_to_cord sub.submitter,
     string_to_cord (sub.notes.getD [])]

/-- `submit_snark` handler (`main.rs:98-163`).  `b64ok` abstracts
`base64::decode(..).is_ok()`; `pokeResult` is the kernel's answer when
the poke is reached.  Returns the response together with the cause
that was poked (`none` when validation short-circuits before the
poke). -/
def submit_snark (b64ok : List Nat → Bool) (sub : SnarkSubmission)
    (pokeResult : Except Unit (List Noun)) : Resp × Option Noun :=
  if sub.proof = [] then
    (error_response 400 "Proof data is required", none)
  else if sub.verification_key = [] then
    (error_response 400 "Verification key is required", none)
  else if sub.submitter = [] then
    (error_response 400 "Submitter is required", none)
  else if b64ok sub.proof = false then
    (error_response 400 "Invalid Base64 in proof data", none)
  else if b64ok sub.verification_key = false then
    (error_response 400 "Invalid Base64 in verification key", none)
  else
    let cause := submit_cause sub
    match pokeResult with
    | Except.ok effects =>
      match first_http_response effects with
      | some r => (r, some cause)
      | none => (success_response 201 "SNARK submitted successfully", some cause)
    | Except.error _ => (error_response 500 "Failed to submit SNARK", some cause)

/-- `get_snark` handler (`main.rs:166-192`) as a function of the poke
result. -/
def get_snark (id : Nat) (pokeResult : Except Unit (List Noun)) : Resp :=
  match pokeResult with
  | Except.ok effects =>
    match first_http_response effects with
    | some r => r
    | none => error_response 500 "Invalid response from kernel"
  | Except.error _ => error_response 404 "SNARK not found"

/-- `list_snarks` handler (`main.rs:195-216`) as a function of the poke
result. -/
def list_snarks (pokeResult : Except Unit (List Noun)) : Resp :=
  match pokeResult with
  | Except.ok effects =>
    match first_http_response effects with
    | some r => r
    | none => Resp.listResp 200 [] 0
  | Except.error _ => error_response 500 "Failed to list SNARKs"

/-- `delete_snark` handler (`main.rs:219-245`) as a function of the
poke result. -/
def delete_snark (id : Nat) (pokeResult : Except Unit (List Noun)) : Resp :=
  match pokeResult with
  | Except.ok effects =>
    match first_http_response effects with
    | some r => r
    | none => success_response 200 "SNARK deleted"
  | Except.error _ => error_response 404 "SNARK not found"

/-- The cause built by `get_snark` (`main.rs:171-174`). -/
def get_cause (id : Nat) : Noun := T [Dbytes get_snark_tag, D id]

/-- The cause built by `list_snarks` (`main.rs:197`). -/
def list_cause : Noun := Dbytes list_snarks_tag

/-- The cause built by `delete_snark` (`main.rs:224-227`). -/
def delete_cause (id : Nat) : Noun := T [Dbytes delete_snark_tag, D id]

/-- The big-endian integer value of a byte string. -/
def beBytesToNat (bs : List Nat) : Nat :=
  bs.foldl (fun acc b => acc * 256 + b) 0

/-- Heads of a right-nested noun list terminated by the atom `0`, in
order; `none` when the noun is not such a list. -/
def noun_list_heads : Noun → Option (List Noun)
  | Noun.atom 0 => some []
  | Noun.cell h t => (noun_list_heads t).map (fun l => h :: l)
  | _ => none

/-- Since the effect decoder recognizes nothing, the shared effect
loop never finds a response. -/
theorem first_http_response_eq_none (effects : List Noun) :
    first_http_response effects = none := by
  induction effects with
  | nil => rfl
  | cons e es ih =>
    simp [first_http_response, List.findSome?_cons, parse_http_response]

/-- Unconditional unfolding of `string_list_to_noun` as a fold. -/
theorem string_list_to_noun_eq_foldr (strings : List (List Nat)) :
    string_list_to_noun strings
      = strings.foldr (fun s acc => Noun.cell (string_to_cord s) acc) (D 0) := by
  cases strings <;> simp [string_list_to_noun]

/-- C10: for a GET whose dispatch succeeds, no effect is recognized
(`parse_http_response` always returns `none`), so `get_snark` answers
`500` with message "Invalid response from kernel" rather than any
success fallback. -/
theorem get_unrecognized_effect_error (id : Nat) (effects : List Noun) :
    get_snark id (Except.ok effects)
        = error_response 500 "Invalid response from kernel" ∧
    (∀ e, parse_http_response e = none) := by
  refine ⟨?_, fun e => rfl⟩
  simp [get_snark, first_http_response_eq_none]

/-- C1 (failing input): `string_to_cord` is not injective — the two
distinct 17-byte strings "aaaaaaaaaaaaaaaaX" and "aaaaaaaaaaaaaaaaY"
agree on their first 16 bytes and therefore map to the same atom. -/
theorem string_to_cord_collision :
    (List.replicate 16 97 ++ [88] : List Nat) ≠ List.replicate 16 97 ++ [89] ∧
    string_to_cord (List.replicate 16 97 ++ [88])
      = string_to_cord (List.replicate 16 97 ++ [89]) := by
  exact ⟨by decide, by decide⟩

/-- C2 (failing input): because `string_to_cord` collapses distinct
strings to one atom, no decoder whatsoever can round-trip it: every
candidate `decode` fails on some string. -/
theorem string_to_cord_no_inverse :
    ∀ decode : Noun → List Nat,
      ∃ s : List Nat, decode (string_to_cord s) ≠ s := by
  intro decode
  by_cases h :
      decode (string_to_cord (List.replicate 16 97 ++ [88]))
        = List.replicate 16 97 ++ [88]
  · refine ⟨List.replicate 16 97 ++ [89], ?_⟩
    have hc : string_to_cord (List.replicate 16 97 ++ [89])
        = string_to_cord (List.replicate 16 97 ++ [88]) := by decide
    rw [hc, h]
    decide
  · exact ⟨List.replicate 16 97 ++ [88], h⟩

/-- C4: `string_list_to_noun` maps the empty sequence to the atom `0`,
builds the right-nested cell structure whose head is the cord of the
first element, and walking the resulting structure returns the encoded
elements in the original order, terminated by the atom `0`. -/
theorem string_list_to_noun_order :
    string_list_to_noun [] = D 0 ∧
    (∀ s rest, string_list_to_noun (s :: rest)
        = Noun.cell (string_to_cord s) (string_list_to_noun rest)) ∧
    (∀ strings, noun_list_heads (string_list_to_noun strings)
        = some (strings.map string_to_cord)) := by
  refine ⟨rfl, ?_, ?_⟩
  · intro s rest
    simp [string_list_to_noun_eq_foldr]
  · intro strings
    induction strings with
    | nil => rfl
    | cons s rest ih =>
      simp only [string_list_to_noun_eq_foldr] at ih ⊢
      simp [noun_list_heads, ih]

/-- C5: submission validation runs in the fixed order proof non-empty,
verification key non-empty, submitter non-empty, proof valid Base64,
verification key valid Base64; the first violated check yields the
corresponding 400 response and nothing is dispatched (`none` cause). -/
theorem submit_validation_order (b64ok : List Nat → Bool)
    (sub : SnarkSubmission) (poke : Except Unit (List Noun)) :
    (sub.proof = [] →
      submit_snark b64ok sub poke
        = (error_response 400 "Proof data is required", none)) ∧
    (sub.proof ≠ [] → sub.verification_key = [] →
      submit_snark b64ok sub poke
        = (error_response 400 "Verification key is required", none)) ∧
    (sub.proof ≠ [] → sub.verification_key ≠ [] → sub.submitter = [] →
      submit_snark b64ok sub poke
        = (error_response 400 "Submitter is required", none)) ∧
    (sub.proof ≠ [] → sub.verification_key ≠ [] → sub.submitter ≠ [] →
      b64ok sub.proof = false →
      submit_snark b64ok sub poke
        = (error_response 400 "Invalid Base64 in proof data", none)) ∧
    (sub.proof ≠ [] → sub.verification_key ≠ [] → sub.submitter ≠ [] →
      b64ok sub.proof = true → b64ok sub.verification_key = false →
      submit_snark b64ok sub poke
        = (error_response 400 "Invalid Base64 in verification key", none)) := by
  refine ⟨?_, ?_, ?_, ?_, ?_⟩ <;> intros <;> simp_all [submit_snark]

/-- C5 witness: concrete submissions hitting each validation branch. -/
theorem submit_validation_order_witness :
    submit_snark (fun _ => true) ⟨[], [], [], [], [], none⟩ (Except.ok [])
      = (error_response 400 "Proof data is required", none) ∧
    submit_snark (fun _ => true) ⟨[1], [], [], [], [], none⟩ (Except.ok [])
      = (error_response 400 "Verification key is required", none) ∧
    submit_snark (fun _ => true) ⟨[1], [], [2], [], [], none⟩ (Except.ok [])
      = (error_response 400 "Submitter is required", none) ∧
    submit_snark (fun _ => false) ⟨[1], [], [2], [], [3], none⟩ (Except.ok [])
      = (error_response 400 "Invalid Base64 in proof data", none) ∧
    submit_snark (fun s => decide (s = [1])) ⟨[1], [], [2], [], [3], none⟩
        (Except.ok [])
      = (error_response 400 "Invalid Base64 in verification key", none) := by
  refine ⟨?_, ?_, ?_, ?_, ?_⟩
  · exact (submit_validation_order (fun _ => true)
      ⟨[], [], [], [], [], none⟩ (Except.ok [])).1 rfl
  · exact (submit_validation_order (fun _ => true)
      ⟨[1], [], [], [], [], none⟩ (Except.ok [])).2.1 (by decide) rfl
  · exact (submit_validation_order (fun _ => true)
      ⟨[1], [], [2], [], [], none⟩ (Except.ok [])).2.2.1 (by decide) (by decide) rfl
  · exact (submit_validation_order (fun _ => false)
      ⟨[1], [], [2], [], [3], none⟩ (Except.ok [])).2.2.2.1
      (by decide) (by decide) (by decide) rfl
  · exact (submit_validation_order (fun s => decide (s = [1]))
      ⟨[1], [], [2], [], [3], none⟩ (Except.ok [])).2.2.2.2
      (by decide) (by decide) (by decide) (by decide) (by decide)

/-- C6: for every submission passing validation, the dispatched cause
is the right-nested tuple `[%submit-snark proof inputs vk system
submitter notes]`, in exactly this positional order. -/
theorem submit_cause_shape (b64ok : List Nat → Bool) (sub : SnarkSubmission)
    (poke : Except Unit (List Noun))
    (h1 : sub.proof ≠ []) (h2 : sub.verification_key ≠ [])
    (h3 : sub.submitter ≠ [])
    (h4 : b64ok sub.proof = true) (h5 : b64ok sub.verification_key = true) :
    (submit_snark b64ok sub poke).2 =
      some (Noun.cell (Dbytes submit_snark_tag)
        (Noun.cell (string_to_cord sub.proof)
          (Noun.cell (string_list_to_noun sub.public_inputs)
            (Noun.cell (string_to_cord sub.verification_key)
              (Noun.cell (Dbytes sub.proof_system)
                (Noun.cell (string_to_cord sub.submitter)
                  (string_to_cord (sub.notes.getD [])))))))) := by
  have hc : submit_cause sub =
      Noun.cell (Dbytes submit_snark_tag)
        (Noun.cell (string_to_cord sub.proof)
          (Noun.cell (string_list_to_noun sub.public_inputs)
            (Noun.cell (string_to_cord sub.verification_key)
              (Noun.cell (Dbytes sub.proof_system)
                (Noun.cell (string_to_cord sub.submitter)
                  (string_to_cord (sub.notes.getD []))))))) := rfl
  cases poke with
  | ok effects =>
    cases hr : first_http_response effects with
    | none => simp [submit_snark, h1, h2, h3, h4, h5, hr, hc]
    | some r => simp [submit_snark, h1, h2, h3, h4, h5, hr, hc]
  | error e => simp [submit_snark, h1, h2, h3, h4, h5, hc]

/-- C6 witness: the cause shape at a concrete valid submission. -/
theorem submit_cause_shape_witness :
    (submit_snark (fun _ => true) ⟨[1], [[2]], [3], [4], [5], some [6]⟩
        (Except.ok [])).2 =
      some (Noun.cell (Dbytes submit_snark_tag)
        (Noun.cell (string_to_cord [1])
          (Noun.cell (string_list_to_noun [[2]])
            (Noun.cell (string_to_cord [3])
              (Noun.cell (Dbytes [4])
                (Noun.cell (string_to_cord [5])
                  (string_to_cord [6]))))))) :=
  submit_cause_shape (fun _ => true) ⟨[1], [[2]], [3], [4], [5], some [6]⟩
    (Except.ok []) (by decide) (by decide) (by decide) rfl rfl

/-- C7: when a dispatch succeeds and no effect is recognized, submit
falls back to 201 "SNARK submitted successfully", delete to 200 "SNARK
deleted", and list to 200 with the empty list; and indeed the decoder
recognizes no effect, so the first-recognized-effect path is vacuous. -/
theorem fallback_responses (b64ok : List Nat → Bool) (sub : SnarkSubmission)
    (effects : List Noun) (id : Nat)
    (h1 : sub.proof ≠ []) (h2 : sub.verification_key ≠ [])
    (h3 : sub.submitter ≠ [])
    (h4 : b64ok sub.proof = true) (h5 : b64ok sub.verification_key = true) :
    (submit_snark b64ok sub (Except.ok effects)).1
        = success_response 201 "SNARK submitted successfully" ∧
    delete_snark id (Except.ok effects) = success_response 200 "SNARK deleted" ∧
    list_snarks (Except.ok effects) = Resp.listResp 200 [] 0 ∧
    (∀ e, parse_http_response e = none) := by
  refine ⟨?_, ?_, ?_, fun e => rfl⟩ <;>
    simp [submit_snark, delete_snark, list_snarks, h1, h2, h3, h4, h5,
      first_http_response_eq_none]

/-- C7 witness: the fallbacks at a concrete valid submission and empty
effect list. -/
theorem fallback_responses_witness :
    (submit_snark (fun _ => true) ⟨[1], [], [2], [], [3], none⟩
        (Except.ok [])).1
        = success_response 201 "SNARK submitted successfully" ∧
    delete_snark 7 (Except.ok []) = success_response 200 "SNARK deleted" ∧
    list_snarks (Except.ok []) = Resp.listResp 200 [] 0 ∧
    (∀ e, parse_http_response e = none) :=
  fallback_responses (fun _ => true) ⟨[1], [], [2], [], [3], none⟩ [] 7
    (by decide) (by decide) (by decide) rfl rfl

/-- C8: a dispatch error on GET maps to 404 "SNARK not found" (so an
unknown id rejected by the ledger is answered not-found), while a
dispatch error on a validated submit maps to 500 "Failed to submit
SNARK". -/
theorem dispatch_error_mapping (b64ok : List Nat → Bool)
    (sub : SnarkSubmission) (id : Nat)
    (h1 : sub.proof ≠ []) (h2 : sub.verification_key ≠ [])
    (h3 : sub.submitter ≠ [])
    (h4 : b64ok sub.proof = true) (h5 : b64ok sub.verification_key = true) :
    get_snark id (Except.error ()) = error_response 404 "SNARK not found" ∧
    (submit_snark b64ok sub (Except.error ())).1
      = error_response 500 "Failed to submit SNARK" := by
  refine ⟨rfl, ?_⟩
  simp [submit_snark, h1, h2, h3, h4, h5]

/-- C8 witness: the error mapping at id 999999 and a concrete valid
submission. -/
theorem dispatch_error_mapping_witness :
    get_snark 999999 (Except.error ()) = error_response 404 "SNARK not found" ∧
    (submit_snark (fun _ => true) ⟨[1], [], [2], [], [3], none⟩
        (Except.error ())).1
      = error_response 500 "Failed to submit SNARK" :=
  dispatch_error_mapping (fun _ => true) ⟨[1], [], [2], [], [3], none⟩ 999999
    (by decide) (by decide) (by decide) rfl rfl

/-- The accumulator of a big-endian fold never decreases. -/
theorem beAcc_le (bs : List Nat) (acc : Nat) :
    acc ≤ bs.foldl (fun a b => a * 256 + b) acc := by
  induction bs generalizing acc with
  | nil => exact le_refl _
  | cons b t ih =>
    have h1 : acc ≤ acc * 256 + b := by omega
    simp only [List.foldl_cons]
    exact le_trans h1 (ih (acc * 256 + b))

/-- Size bound of a big-endian fold over in-range bytes. -/
theorem beAcc_lt (bs : List Nat) (acc : Nat) (hb : ∀ b ∈ bs, b < 256) :
    bs.foldl (fun a b => a * 256 + b) acc < (acc + 1) * 256 ^ bs.length := by
  induction bs generalizing acc with
  | nil => simp
  | cons b t ih =>
    have hb0 : b < 256 := hb b (List.mem_cons_self _ _)
    have ht : ∀ x ∈ t, x < 256 := fun x hx => hb x (List.mem_cons_of_mem _ hx)
    have h1 := ih (acc * 256 + b) ht
    have h3 : acc * 256 + b + 1 ≤ (acc + 1) * 256 := by omega
    have h2 : (acc * 256 + b + 1) * 256 ^ t.length
        ≤ (acc + 1) * 256 ^ (t.length + 1) := by
      calc (acc * 256 + b + 1) * 256 ^ t.length
          ≤ ((acc + 1) * 256) * 256 ^ t.length :=
            mul_le_mul_right' h3 (256 ^ t.length)
        _ = (acc + 1) * 256 ^ (t.length + 1) := by ring
    simp only [List.foldl_cons, List.length_cons]
    exact lt_of_lt_of_le h1 h2

/-- With in-range bytes and no overflow, the shift-and-or fold used by
`string_to_cord` computes the plain big-endian fold. -/
theorem foldl_shift_eq_beAcc (bs : List Nat) (acc : Nat)
    (hb : ∀ b ∈ bs, b < 256)
    (hlt : bs.foldl (fun a b => a * 256 + b) acc < 2 ^ 128) :
    bs.foldl (fun a b => ((a <<< 8) % 2 ^ 128) ||| b) acc
      = bs.foldl (fun a b => a * 256 + b) acc := by
  induction bs generalizing acc with
  | nil => rfl
  | cons b t ih =>
    have hb0 : b < 256 := hb b (List.mem_cons_self _ _)
    have ht : ∀ x ∈ t, x < 256 := fun x hx => hb x (List.mem_cons_of_mem _ hx)
    simp only [List.foldl_cons] at hlt ⊢
    have hstep : acc * 256 + b < 2 ^ 128 :=
      lt_of_le_of_lt (beAcc_le t (acc * 256 + b)) hlt
    have hsh : acc <<< 8 = acc * 256 := by
      rw [Nat.shiftLeft_eq]
    have hmod : (acc <<< 8) % 2 ^ 128 = acc * 256 := by
      rw [hsh]
      exact Nat.mod_eq_of_lt (by omega)
    have hb8 : b < 2 ^ 8 := lt_of_lt_of_le hb0 (by norm_num)
    have hor := Nat.mul_add_lt_is_or hb8 acc
    have h28 : (2 : Nat) ^ 8 = 256 := by norm_num
    rw [h28, Nat.mul_comm] at hor
    rw [hmod, ← hor]
    exact ih (acc * 256 + b) ht hlt

/-- C9: for in-range byte strings, `string_to_cord` returns the atom
of the big-endian value of the first (at most) 16 bytes reduced modulo
`2 ^ 64`, so every byte beyond the sixteenth and every bit above the
low 64 is discarded; the empty string returns the zero atom. -/
theorem string_to_cord_truncating (s : List Nat) (hb : ∀ b ∈ s, b < 256) :
    string_to_cord s = D (beBytesToNat (s.take 16) % 2 ^ 64) ∧
    string_to_cord [] = D 0 := by
  refine ⟨?_, rfl⟩
  by_cases hs : s = []
  · subst hs; rfl
  · have hb16 : ∀ b ∈ s.take 16, b < 256 := fun b h => hb b (List.take_subset _ _ h)
    have hlen : (s.take 16).length ≤ 16 := by
      simp [List.length_take]
    have hlt : (s.take 16).foldl (fun a b => a * 256 + b) 0 < 2 ^ 128 := by
      have h1 := beAcc_lt (s.take 16) 0 hb16
      have h2 : (256 : Nat) ^ (s.take 16).length ≤ 256 ^ 16 :=
        Nat.pow_le_pow_right (by norm_num) hlen
      have h3 : (256 : Nat) ^ 16 = 2 ^ 128 := by norm_num
      calc (s.take 16).foldl (fun a b => a * 256 + b) 0
          < (0 + 1) * 256 ^ (s.take 16).length := h1
        _ = 256 ^ (s.take 16).length := by ring
        _ ≤ 256 ^ 16 := h2
        _ = 2 ^ 128 := h3
    unfold string_to_cord
    rw [if_neg hs]
    unfold beBytesToNat
    rw [foldl_shift_eq_beAcc (s.take 16) 0 hb16 hlt]

/-- C9 witness: the encoding of the two-byte string "hi". -/
theorem string_to_cord_truncating_witness :
    string_to_cord [104, 105] = D (beBytesToNat ([104, 105].take 16) % 2 ^ 64) ∧
    string_to_cord [] = D 0 :=
  string_to_cord_truncating [104, 105] (by decide)

end Prover
